import Mathlib

/-!
Verification of the Kotlin AST analyzer core
(`poc_agno/code_documenter_ast/workers/kotlin_ast_analyser/`): the data
model, the fully-qualified-name resolver, the `uses` extraction pipeline,
per-entity extraction defaults, import collection, the per-file error
handling, and the (spec-described) usage-graph reconciliation pass.

Python strings are modelled as Lean `String`; Python `str.endswith` and
slicing are modelled character-wise on `String.data`; Python `set` is
modelled as `Finset String` and Python `sorted` as `Finset.sort (· ≤ ·)`;
caught exceptions are modelled with `Except`, a swallowed exception
becoming `Option.none`.
-/

/-- Python `s.endswith(suffix)`: `suffix` is a suffix of `s` (character-wise). -/
def pyEndsWith (s suffix : String) : Bool :=
  decide (suffix.data <:+ s.data)

/-- Python `s[:-n]`: all but the last `n` characters of `s`. -/
def pyDropRight (s : String) (n : Nat) : String :=
  ⟨s.data.take (s.data.length - n)⟩

/-- Mirrors `VariableData` (model/variable_data.py): dataclass defaults
`name=""`, `type=""`, `annotations=[]`, `visibility="public"`,
`default_value=None`. -/
structure VariableData where
  name : String := ""
  type : String := ""
  annotations : List String := []
  visibility : String := "public"
  default_value : Option String := none
deriving DecidableEq

/-- Mirrors `FunctionData` (model/function_data.py): dataclass defaults,
in particular `visibility="public"` and `return_type="Unit"`. -/
structure FunctionData where
  name : String := ""
  parameters : List VariableData := []
  annotations : List String := []
  visibility : String := "public"
  return_type : String := "Unit"
deriving DecidableEq

/-- Mirrors `KotlinAnalysisData` (model/kotlin_analysis_data.py).
The Python field `extends` is a Lean keyword, hence `extends'`. -/
structure KotlinAnalysisData where
  filename : String := ""
  package_name : String := ""
  imports : List String := []
  name : String := ""
  type : String := ""
  annotations : List String := []
  visibility : String := "public"
  members : List VariableData := []
  constructor_param_type : List VariableData := []
  extends' : String := ""
  implements : List String := []
  functions : List FunctionData := []
  uses : List String := []
  used_by : List String := []
deriving DecidableEq

/-- The declaration's fully-qualified name, `package_name + "." + name`,
as computed by the self-reference checks in `_extract_classes_used_wq`
and `_extract_types_from_members_and_functions`. -/
def KotlinAnalysisData.fqn (k : KotlinAnalysisData) : String :=
  k.package_name ++ "." ++ k.name

/-- Mirrors `KotlinASTAnalyzer.KOTLIN_BUILTIN_TYPES` (kotlin_analyzer_ast.py). -/
def KOTLIN_BUILTIN_TYPES : List String :=
  ["Int", "Long", "Short", "Byte", "Float", "Double", "Char", "Boolean", "Unit",
   "String", "Any", "Nothing", "Array", "List", "MutableList", "Set", "Map",
   "MutableSet", "MutableMap"]

/-- Mirrors `_resolve_fully_qualified` (kotlin_analyzer_ast.py, lines 581-600):
first import ending in `"." + type_name`; else first import ending in `".*"`
with `imp[:-2] + "." + type_name`; else `package_name + "." + type_name`
when the package is non-empty; else the raw name. -/
def resolveFullyQualified (typeName : String) (k : KotlinAnalysisData) : String :=
  match k.imports.find? (fun imp => pyEndsWith imp ("." ++ typeName)) with
  | some imp => imp
  | none =>
    match k.imports.find? (fun imp => pyEndsWith imp ".*") with
    | some imp => pyDropRight imp 2 ++ "." ++ typeName
    | none =>
      if k.package_name = "" then typeName
      else k.package_name ++ "." ++ typeName

/-- Splits a character list at every dot (segments of a qualified name). -/
def splitDots (l : List Char) : List (List Char) :=
  match l with
  | [] => [[]]
  | c :: rest =>
    match splitDots rest with
    | [] => [[]]
    | seg :: segs => if c = '.' then [] :: seg :: segs else (c :: seg) :: segs

/-- The last dot-separated segment of a qualified name. -/
def lastSegment (s : String) : String :=
  ⟨(splitDots s.data).getLastD []⟩

/-- The resolver exactly as the specification's words describe it, for
comparison with `resolveFullyQualified`: priority (1) is an import whose
LAST SEGMENT equals the raw name, returned as-is. -/
def claimResolve (typeName : String) (imports : List String) (pkg : String) : String :=
  match imports.find? (fun imp => lastSegment imp = typeName) with
  | some imp => imp
  | none =>
    match imports.find? (fun imp => pyEndsWith imp ".*") with
    | some imp => pyDropRight imp 2 ++ "." ++ typeName
    | none =>
      if pkg = "" then typeName
      else pkg ++ "." ++ typeName

/-- One step of the body-scan loop in `_extract_classes_used_wq`
(lines 558-574): skip built-ins, resolve, skip self-references,
otherwise add the resolved name to the found set. -/
def bodyStep (k : KotlinAnalysisData) (acc : Finset String) (typeName : String) :
    Finset String :=
  if typeName ∈ KOTLIN_BUILTIN_TYPES then acc
  else if resolveFullyQualified typeName k = k.fqn then acc
  else insert (resolveFullyQualified typeName k) acc

/-- The `found_types` set of `_extract_classes_used_wq`: the body's
`user_type` identifier texts, folded through `bodyStep`. -/
def bodyFoundTypes (bodyTypes : List String) (k : KotlinAnalysisData) : Finset String :=
  bodyTypes.foldl (bodyStep k) ∅

/-- One type-check step of `_extract_types_from_members_and_functions`
(lines 610-637): Python truthiness (`ty` non-empty), not a built-in,
resolve, and add unless it is the self FQN. -/
def typeStep (k : KotlinAnalysisData) (acc : Finset String) (ty : String) :
    Finset String :=
  if ty ≠ "" ∧ ty ∉ KOTLIN_BUILTIN_TYPES then
    if resolveFullyQualified ty k ≠ k.fqn then
      insert (resolveFullyQualified ty k) acc
    else acc
  else acc

/-- The `found_types` set of `_extract_types_from_members_and_functions`
(lines 607-637): `set(uses)`, extended with member types, constructor
parameter types, and function return and parameter types. -/
def memberFunctionTypes (k : KotlinAnalysisData) : Finset String :=
  k.functions.foldl
    (fun acc fn =>
      fn.parameters.foldl (fun a p => typeStep k a p.type)
        (typeStep k acc fn.return_type))
    (k.constructor_param_type.foldl (fun acc p => typeStep k acc p.type)
      (k.members.foldl (fun acc m => typeStep k acc m.type)
        k.uses.toFinset))

/-- Mirrors `_extract_types_from_members_and_functions` (lines 602-639):
collect `memberFunctionTypes`, then `uses = sorted(found_types)`. -/
def extractTypesFromMembersAndFunctions (k : KotlinAnalysisData) : KotlinAnalysisData :=
  { k with uses := Finset.sort (· ≤ ·) (memberFunctionTypes k) }

/-- Mirrors `_extract_classes_used_wq` (lines 552-579): merge the body's
found types into `uses` (`sorted(set(uses).union(found_types))`), then run
`_extract_types_from_members_and_functions`. -/
def extractClassesUsed (bodyTypes : List String) (k : KotlinAnalysisData) :
    KotlinAnalysisData :=
  extractTypesFromMembersAndFunctions
    { k with uses := Finset.sort (· ≤ ·) (k.uses.toFinset ∪ bodyFoundTypes bodyTypes k) }

/-- The FQNs of the declarations in the graph that use `b` (have `b.fqn`
among their `uses` targets). -/
def incomingUsers (graph : List KotlinAnalysisData) (b : KotlinAnalysisData) :
    List String :=
  (graph.filter fun a => decide (b.fqn ∈ a.uses)).map KotlinAnalysisData.fqn

/-- Modelled from the spec: the Usage Graph Aggregator's Reconcile
(finalization) pass is missing from src — `analyze_kotlin_codebase`
(workflows/v4/tree_hugger_all.py) implements only the Collect walk and
never writes `used_by`. Spec section 4.4 step 2: for every declaration A
and every FQN target in `A.uses` that exists in the graph, add `A.fqn` to
that target's `usedBy`. -/
def reconcile (graph : List KotlinAnalysisData) : List KotlinAnalysisData :=
  graph.map fun b => { b with used_by := b.used_by ++ incomingUsers graph b }

/-- The `app.User` declaration of spec scenario A. -/
def sampleUser : KotlinAnalysisData :=
  { filename := "app/User.kt", package_name := "app", name := "User",
    members := [{ name := "id", type := "Int" }] }

/-- The `app.service.UserService` declaration of spec scenario A, whose
`get(): User` resolved through the import `app.User`. -/
def sampleService : KotlinAnalysisData :=
  { filename := "app/service/UserService.kt", package_name := "app.service",
    name := "UserService", imports := ["app.User"], uses := ["app.User"] }

/-- `sampleUser` as it stands in the finalized graph. -/
def sampleUserFinal : KotlinAnalysisData :=
  { sampleUser with used_by := ["app.service.UserService"] }

/-- Mirrors `analyze_kotlin_file` (kotlin_analyzer_ast.py, lines 468-519):
the whole parse-and-extract body runs inside try/except; a raised
exception is caught, printed, and the method falls through to an implicit
`None`. The body's outcome is modelled as `Except`. -/
def analyzeKotlinFile (body : Except String (List KotlinAnalysisData)) :
    Option (List KotlinAnalysisData) :=
  match body with
  | Except.ok ds => some ds
  | Except.error _ => none

/-- The caller's per-file loop (each file handled independently). -/
def analyzeBatch (bodies : List (Except String (List KotlinAnalysisData))) :
    List (Option (List KotlinAnalysisData)) :=
  bodies.map analyzeKotlinFile

/-- Mirrors `_create_query_cursor` (lines 1012-1031): `Query(...)`
compilation runs inside try/except; a compile failure is caught, printed,
and the method falls through to an implicit `None` — although its own
docstring says it raises on compile failure. -/
def createQueryCursor (compiled : Except String String) : Option String :=
  match compiled with
  | Except.ok q => some q
  | Except.error _ => none

/-- Captures of one match of the high-level class query, as the capture
dictionary in `_extract_high_level_declaration_wq` sees them: a key is
present iff at least one node was captured. -/
structure DeclCaptures where
  classAnnotations : List String := []
  classVisibility : Option String := none
  classModifier : Option String := none
  typeName : Option String := none
deriving DecidableEq

/-- Mirrors the per-match body of `_extract_high_level_declaration_wq`
(lines 821-852), without the class-body function pass: annotations when
captured, visibility defaulting to "public" when the capture is absent
(line 833), the class modifier into `type`, and the declared name. -/
def extractHighLevelDeclaration (c : DeclCaptures) (k : KotlinAnalysisData) :
    KotlinAnalysisData :=
  let k1 := if c.classAnnotations ≠ [] then { k with annotations := c.classAnnotations } else k
  let k2 := { k1 with visibility := c.classVisibility.getD "public" }
  let k3 := match c.classModifier with
    | some m => { k2 with type := m }
    | none => k2
  match c.typeName with
  | some n => { k3 with name := n }
  | none => k3

/-- Captures of one match of the members (property) query, per
`_extract_members_wq`. -/
structure PropertyCaptures where
  annotations : List String := []
  visibility : Option String := none
  name : Option String := none
  type : Option String := none
  defaultValue : Option String := none
deriving DecidableEq

/-- Mirrors the per-match body of `_extract_members_wq` (lines 702-723): a
fresh `VariableData` (dataclass defaults, so visibility "public"), each
field overwritten only when its capture is present. -/
def extractMember (c : PropertyCaptures) : VariableData :=
  let m : VariableData := {}
  let m1 := { m with annotations := m.annotations ++ c.annotations }
  let m2 := match c.visibility with
    | some v => { m1 with visibility := v }
    | none => m1
  let m3 := match c.name with
    | some n => { m2 with name := n }
    | none => m2
  let m4 := match c.type with
    | some t => { m3 with type := t }
    | none => m3
  match c.defaultValue with
  | some d => { m4 with default_value := some d }
  | none => m4

/-- Captures of one match of the primary-constructor-parameters query, per
`_extract_constructor_params_wq`. -/
structure CtorParamCaptures where
  name : Option String := none
  annotations : List String := []
  visibility : Option String := none
  type : Option String := none
  defaultValue : Option String := none
deriving DecidableEq

/-- Mirrors the per-match body of `_extract_constructor_params_wq`
(lines 659-682): a fresh `VariableData` (visibility defaults to
"public"), fields overwritten only when captured. -/
def extractCtorParam (c : CtorParamCaptures) : VariableData :=
  let m : VariableData := {}
  let m1 := match c.name with
    | some n => { m with name := n }
    | none => m
  let m2 := { m1 with annotations := m1.annotations ++ c.annotations }
  let m3 := match c.visibility with
    | some v => { m2 with visibility := v }
    | none => m2
  let m4 := match c.type with
    | some t => { m3 with type := t }
    | none => m3
  match c.defaultValue with
  | some d => { m4 with default_value := some d }
  | none => m4

/-- Captures of one match of the nested function-parameter query inside
`_extract_functions_wq`, in the branch where the parameter name capture is
present (the code then reads the type capture unconditionally);
`defaultValue` is the result of the `= <expr>` sibling lookahead scan. -/
structure FuncParamCaptures where
  annotations : List String := []
  name : String := ""
  type : String := ""
  defaultValue : Option String := none
deriving DecidableEq

/-- Mirrors lines 939-967 of `_extract_functions_wq`: `visibility` is
explicitly assigned the empty string (line 941) and never overwritten —
the nested parameter query captures no visibility modifier. -/
def extractFunctionParam (c : FuncParamCaptures) : VariableData :=
  let p : VariableData := {}
  let p1 := { p with visibility := "" }
  let p2 := { p1 with name := c.name, type := c.type }
  let p3 := { p2 with annotations := p2.annotations ++ c.annotations }
  match c.defaultValue with
  | some d => { p3 with default_value := some d }
  | none => p3

/-- Captures of one match of the function query, per
`_extract_functions_wq`; `params` holds the nested parameter matches. -/
structure FunctionCaptures where
  annotations : List String := []
  name : Option String := none
  visibility : Option String := none
  params : List FuncParamCaptures := []
  returnType : Option String := none
deriving DecidableEq

/-- Mirrors the per-match body of `_extract_functions_wq` (lines 900-972):
a fresh `FunctionData` (dataclass defaults: visibility "public",
return_type "Unit"), annotations appended, name and visibility when
captured, parameters from the nested query, return type when captured. -/
def extractFunction (c : FunctionCaptures) : FunctionData :=
  let f : FunctionData := {}
  let f1 := { f with annotations := f.annotations ++ c.annotations }
  let f2 := match c.name with
    | some n => { f1 with name := n }
    | none => f1
  let f3 := match c.visibility with
    | some v => { f2 with visibility := v }
    | none => f2
  let f4 := { f3 with parameters := f3.parameters ++ c.params.map extractFunctionParam }
  match c.returnType with
  | some t => { f4 with return_type := t }
  | none => f4

/-- Mirrors `_extract_imports` (lines 974-991): the captured import text
when the capture is present, else the empty string. -/
def extractImportText (c : Option String) : String :=
  match c with
  | some s => s
  | none => ""

/-- One iteration of the match loop in `_extract_imports_wq`: append
the captured text when it is non-empty. -/
def importStep (acc : List String) (c : Option String) : List String :=
  if extractImportText c ≠ "" then acc ++ [extractImportText c] else acc

/-- Mirrors `_extract_imports_wq` (lines 750-776): start from `[]` and
append each match's non-empty import text; no de-duplication happens. -/
def extractImportsWq (captures : List (Option String)) : List String :=
  captures.foldl importStep []

/-- `List.find?` returns the first element satisfying the predicate. -/
theorem find?_of_first {α : Type} (p : α → Bool) (pre : List α) (x : α) (post : List α)
    (hx : p x = true) (hpre : ∀ y ∈ pre, p y = false) :
    (pre ++ x :: post).find? p = some x := by
  induction pre with
  | nil => simp [List.find?_cons, hx]
  | cons a l ih =>
    have ha : p a = false := hpre a (by simp)
    simp only [List.cons_append, List.find?_cons, ha]
    exact ih fun y hy => hpre y (by simp [hy])

/-- `List.find?` fails when no element satisfies the predicate. -/
theorem find?_of_none {α : Type} (p : α → Bool) (l : List α)
    (h : ∀ y ∈ l, p y = false) : l.find? p = none := by
  induction l with
  | nil => rfl
  | cons a l ih =>
    have ha : p a = false := h a (by simp)
    simp only [List.find?_cons, ha]
    exact ih fun y hy => h y (by simp [hy])

/-- A predicate preserved by each step of a left fold holds of the result. -/
theorem foldl_preserves {α β : Type} (P : β → Prop) (step : β → α → β)
    (hstep : ∀ b a, P b → P (step b a)) :
    ∀ (l : List α) (b : β), P b → P (l.foldl step b) := by
  intro l
  induction l with
  | nil => exact fun b hb => hb
  | cons a t ih => exact fun b hb => ih (step b a) (hstep b a hb)

/-- A left fold whose step fixes the accumulator returns the accumulator. -/
theorem foldl_fixed {α β : Type} (step : β → α → β) (l : List α) (b : β)
    (h : ∀ a ∈ l, step b a = b) : l.foldl step b = b := by
  induction l with
  | nil => rfl
  | cons a t ih =>
    rw [List.foldl_cons, h a (by simp)]
    exact ih fun x hx => h x (by simp [hx])

/-- The body scan never adds the declaration's own FQN. -/
theorem bodyStep_not_self (k : KotlinAnalysisData) (acc : Finset String) (t : String)
    (h : k.fqn ∉ acc) : k.fqn ∉ bodyStep k acc t := by
  unfold bodyStep
  split_ifs with h1 h2
  · exact h
  · exact h
  · intro hmem
    rcases Finset.mem_insert.mp hmem with he | hin
    · exact h2 he.symm
    · exact h hin

/-- The member/function type scan never adds the declaration's own FQN. -/
theorem typeStep_not_self (k : KotlinAnalysisData) (acc : Finset String) (ty : String)
    (h : k.fqn ∉ acc) : k.fqn ∉ typeStep k acc ty := by
  unfold typeStep
  split_ifs with h1 h2
  · intro hmem
    rcases Finset.mem_insert.mp hmem with he | hin
    · exact h2 he.symm
    · exact h hin
  · exact h
  · exact h

/-- If the self FQN is not among the incoming `uses`, the member/function
pass does not introduce it. -/
theorem not_self_in_memberFunctionTypes (k : KotlinAnalysisData)
    (h : k.fqn ∉ k.uses.toFinset) : k.fqn ∉ memberFunctionTypes k := by
  unfold memberFunctionTypes
  refine foldl_preserves (fun acc => k.fqn ∉ acc) _ ?_ k.functions _
    (foldl_preserves (fun acc => k.fqn ∉ acc) _
      (fun acc p hp => typeStep_not_self k acc p.type hp) k.constructor_param_type _
      (foldl_preserves (fun acc => k.fqn ∉ acc) _
        (fun acc m hm => typeStep_not_self k acc m.type hm) k.members _ h))
  intro acc fn hacc
  exact foldl_preserves (fun a => k.fqn ∉ a) _
    (fun a p hp => typeStep_not_self k a p.type hp)
    fn.parameters _ (typeStep_not_self k acc fn.return_type hacc)

/-- A built-in type name is skipped by the body scan. -/
theorem bodyStep_builtin (k : KotlinAnalysisData) (acc : Finset String) (t : String)
    (h : t ∈ KOTLIN_BUILTIN_TYPES) : bodyStep k acc t = acc := by
  unfold bodyStep
  rw [if_pos h]

/-- A built-in type name is skipped by the member/function type scan. -/
theorem typeStep_builtin (k : KotlinAnalysisData) (acc : Finset String) (ty : String)
    (h : ty ∈ KOTLIN_BUILTIN_TYPES) : typeStep k acc ty = acc := by
  unfold typeStep
  exact if_neg fun hand => hand.2 h

/-- When every member, constructor-parameter, return and parameter type is
a built-in, the member/function pass only keeps the incoming `uses`. -/
theorem memberFunctionTypes_of_builtins (k : KotlinAnalysisData)
    (h2 : ∀ m ∈ k.members, m.type ∈ KOTLIN_BUILTIN_TYPES)
    (h3 : ∀ p ∈ k.constructor_param_type, p.type ∈ KOTLIN_BUILTIN_TYPES)
    (h4 : ∀ fn ∈ k.functions, fn.return_type ∈ KOTLIN_BUILTIN_TYPES ∧
      ∀ p ∈ fn.parameters, p.type ∈ KOTLIN_BUILTIN_TYPES) :
    memberFunctionTypes k = k.uses.toFinset := by
  unfold memberFunctionTypes
  rw [foldl_fixed _ k.members k.uses.toFinset
      (fun m hm => typeStep_builtin k _ m.type (h2 m hm)),
    foldl_fixed _ k.constructor_param_type k.uses.toFinset
      (fun p hp => typeStep_builtin k _ p.type (h3 p hp))]
  exact foldl_fixed _ k.functions k.uses.toFinset fun fn hfn => by
    rw [typeStep_builtin k _ fn.return_type (h4 fn hfn).1]
    exact foldl_fixed _ fn.parameters _
      (fun p hp => typeStep_builtin k _ p.type ((h4 fn hfn).2 p hp))

/-- The import loop, with an arbitrary accumulator, equals the accumulator
followed by the non-empty captured texts in order. -/
theorem foldl_importStep (captures : List (Option String)) :
    ∀ acc : List String,
      captures.foldl importStep acc =
        acc ++ captures.filterMap
          (fun c => if extractImportText c = "" then none else some (extractImportText c)) := by
  induction captures with
  | nil => intro acc; simp
  | cons c t ih =>
    intro acc
    rw [List.foldl_cons, ih]
    unfold importStep
    by_cases h : extractImportText c = ""
    · simp [h]
    · simp [h]

/-- C1, counterexample: the claim's priority (1) says an import whose last
segment equals the raw name is returned as-is, so with imports `["Foo"]`
and package `"app"` the raw name `"Foo"` would resolve to the import
`"Foo"` itself; the code's suffix test `imp.endswith("." + type_name)`
rejects the dot-free import and resolves to `"app.Foo"` instead. -/
theorem c1_counterexample :
    claimResolve "Foo" ["Foo"] "app" = "Foo" ∧
    resolveFullyQualified "Foo" { imports := ["Foo"], package_name := "app" } = "app.Foo" ∧
    lastSegment "Foo" = "Foo" ∧ ("app.Foo" : String) ≠ "Foo" :=
  ⟨by decide, by decide, by decide, by decide⟩

/-- C1 (amended): the resolver's first-match-wins priority, with priority
(1) being an import that ends in `"." + rawTypeName` (a dot must precede
the name), then (2) the first wildcard import, then (3) the package
prefix when the package is non-empty, then (4) the raw name; and the two
concrete resolutions the claim gives. -/
theorem c1_resolve_priority (typeName : String) (k : KotlinAnalysisData) :
    (∀ pre imp post, k.imports = pre ++ imp :: post →
      pyEndsWith imp ("." ++ typeName) = true →
      (∀ y ∈ pre, pyEndsWith y ("." ++ typeName) = false) →
      resolveFullyQualified typeName k = imp) ∧
    ((∀ y ∈ k.imports, pyEndsWith y ("." ++ typeName) = false) →
      ∀ pre imp post, k.imports = pre ++ imp :: post →
      pyEndsWith imp ".*" = true →
      (∀ y ∈ pre, pyEndsWith y ".*" = false) →
      resolveFullyQualified typeName k = pyDropRight imp 2 ++ "." ++ typeName) ∧
    ((∀ y ∈ k.imports, pyEndsWith y ("." ++ typeName) = false) →
      (∀ y ∈ k.imports, pyEndsWith y ".*" = false) →
      k.package_name ≠ "" →
      resolveFullyQualified typeName k = k.package_name ++ "." ++ typeName) ∧
    ((∀ y ∈ k.imports, pyEndsWith y ("." ++ typeName) = false) →
      (∀ y ∈ k.imports, pyEndsWith y ".*" = false) →
      k.package_name = "" →
      resolveFullyQualified typeName k = typeName) ∧
    resolveFullyQualified "Foo" { imports := ["pkg.Foo"], package_name := "app" } = "pkg.Foo" ∧
    resolveFullyQualified "Bar" { imports := ["pkg.Foo"], package_name := "app" } = "app.Bar" := by
  refine ⟨?_, ?_, ?_, ?_, by decide, by decide⟩
  · intro pre imp post hsplit hx hpre
    unfold resolveFullyQualified
    rw [hsplit, find?_of_first _ pre imp post hx hpre]
  · intro hall pre imp post hsplit hx hpre
    unfold resolveFullyQualified
    rw [hsplit] at hall ⊢
    rw [find?_of_none _ _ hall, find?_of_first _ pre imp post hx hpre]
  · intro hexact hwild hpkg
    unfold resolveFullyQualified
    rw [find?_of_none _ _ hexact, find?_of_none _ _ hwild, if_neg hpkg]
  · intro hexact hwild hpkg
    unfold resolveFullyQualified
    rw [find?_of_none _ _ hexact, find?_of_none _ _ hwild, if_pos hpkg]

/-- C1, witness: priority (1) applied to the claim's own example, through
`c1_resolve_priority` at a concrete input. -/
theorem c1_resolve_priority_witness :
    resolveFullyQualified "Foo" { imports := ["pkg.Foo"], package_name := "app" } = "pkg.Foo" :=
  (c1_resolve_priority "Foo" { imports := ["pkg.Foo"], package_name := "app" }).1
    [] "pkg.Foo" [] rfl (by decide) (by simp)

/-- C2 (confirmed against the spec-modelled pass): after reconciliation of
a graph with unique FQNs whose declarations enter with empty `used_by`
(extraction never writes it), for declarations A and B of the finalized
graph, `B.fqn ∈ A.uses` iff `A.fqn ∈ B.used_by`. -/
theorem c2_reconcile_bidirectional (graph : List KotlinAnalysisData)
    (huniq : (graph.map KotlinAnalysisData.fqn).Nodup)
    (hinit : ∀ d ∈ graph, d.used_by = [])
    (A B : KotlinAnalysisData)
    (hA : A ∈ reconcile graph) (hB : B ∈ reconcile graph) :
    B.fqn ∈ A.uses ↔ A.fqn ∈ B.used_by := by
  obtain ⟨a0, ha0, rfl⟩ := List.mem_map.mp hA
  obtain ⟨b0, hb0, rfl⟩ := List.mem_map.mp hB
  show b0.fqn ∈ a0.uses ↔ a0.fqn ∈ b0.used_by ++ incomingUsers graph b0
  rw [hinit b0 hb0, List.nil_append]
  constructor
  · intro huse
    exact List.mem_map.mpr ⟨a0, List.mem_filter.mpr ⟨ha0, by simpa using huse⟩, rfl⟩
  · intro hused
    obtain ⟨a1, ha1, hfq⟩ := List.mem_map.mp hused
    have ha1g : a1 ∈ graph := (List.mem_filter.mp ha1).1
    have hb0a1 : b0.fqn ∈ a1.uses := by simpa using (List.mem_filter.mp ha1).2
    have heq : a1 = a0 := List.inj_on_of_nodup_map huniq ha1g ha0 hfq
    exact heq ▸ hb0a1

/-- C2, witness: scenario A's two-declaration graph, reconciled. -/
theorem c2_reconcile_bidirectional_witness :
    sampleUserFinal.fqn ∈ sampleService.uses ↔
      sampleService.fqn ∈ sampleUserFinal.used_by :=
  c2_reconcile_bidirectional [sampleUser, sampleService] (by decide) (by decide)
    sampleService sampleUserFinal (by decide) (by decide)

/-- C3 (confirmed): a declaration produced by the analysis pipeline (which
starts from an empty `uses`) never lists its own fully-qualified name in
`uses`, however often the body, members, constructor parameters, or
function signatures mention its own type name. -/
theorem c3_no_self_loop (bodyTypes : List String) (k : KotlinAnalysisData)
    (h : k.uses = []) :
    (extractClassesUsed bodyTypes k).fqn ∉ (extractClassesUsed bodyTypes k).uses := by
  show k.fqn ∉ Finset.sort (· ≤ ·)
      (memberFunctionTypes
        { k with uses := Finset.sort (· ≤ ·) (k.uses.toFinset ∪ bodyFoundTypes bodyTypes k) })
  rw [Finset.mem_sort]
  apply not_self_in_memberFunctionTypes
  show k.fqn ∉ (Finset.sort (· ≤ ·) (k.uses.toFinset ∪ bodyFoundTypes bodyTypes k)).toFinset
  rw [Finset.sort_toFinset, h]
  simp only [List.toFinset_nil, Finset.empty_union]
  exact foldl_preserves (fun acc => k.fqn ∉ acc) (bodyStep k)
    (fun acc t hacc => bodyStep_not_self k acc t hacc) bodyTypes ∅ (Finset.not_mem_empty _)

/-- C3, witness: a class `app.User` whose body mentions its own name. -/
theorem c3_no_self_loop_witness :
    (extractClassesUsed ["User"] { package_name := "app", name := "User" }).fqn ∉
      (extractClassesUsed ["User"] { package_name := "app", name := "User" }).uses :=
  c3_no_self_loop ["User"] { package_name := "app", name := "User" } rfl

/-- C4, counterexample: a failing file produces `None`, which is not the
claimed empty declaration list accompanied by a non-null error marker —
the return type carries no error marker at all. -/
theorem c4_counterexample :
    analyzeKotlinFile (Except.error "parse failed") = none ∧
    (none : Option (List KotlinAnalysisData)) ≠ some [] :=
  ⟨rfl, by decide⟩

/-- C4 (amended): per-file analysis never propagates an exception — a
failing file yields `None` (no declarations, and no error marker is
surfaced, unlike the claimed `([], marker)` pair), a successful file
yields its declarations, and a failing file leaves every sibling file of
the batch unaffected. -/
theorem c4_failure_semantics :
    (∀ e : String, analyzeKotlinFile (Except.error e) = none) ∧
    (∀ ds : List KotlinAnalysisData, analyzeKotlinFile (Except.ok ds) = some ds) ∧
    (∀ (pre post : List (Except String (List KotlinAnalysisData))) (e : String),
      analyzeBatch (pre ++ Except.error e :: post) =
        analyzeBatch pre ++ none :: analyzeBatch post) := by
  refine ⟨fun e => rfl, fun ds => rfl, fun pre post e => ?_⟩
  unfold analyzeBatch
  simp [analyzeKotlinFile]

/-- C5 (confirmed): a declaration (starting from an empty `uses`) whose
referenced type names all lie in `KOTLIN_BUILTIN_TYPES` ends with
`uses = []`: built-ins are filtered before resolution and never added. -/
theorem c5_builtin_filtering (bodyTypes : List String) (k : KotlinAnalysisData)
    (h0 : k.uses = [])
    (h1 : ∀ t ∈ bodyTypes, t ∈ KOTLIN_BUILTIN_TYPES)
    (h2 : ∀ m ∈ k.members, m.type ∈ KOTLIN_BUILTIN_TYPES)
    (h3 : ∀ p ∈ k.constructor_param_type, p.type ∈ KOTLIN_BUILTIN_TYPES)
    (h4 : ∀ fn ∈ k.functions, fn.return_type ∈ KOTLIN_BUILTIN_TYPES ∧
      ∀ p ∈ fn.parameters, p.type ∈ KOTLIN_BUILTIN_TYPES) :
    (extractClassesUsed bodyTypes k).uses = [] := by
  have hbody : bodyFoundTypes bodyTypes k = ∅ :=
    foldl_fixed _ bodyTypes ∅ fun t ht => bodyStep_builtin k ∅ t (h1 t ht)
  show Finset.sort (· ≤ ·)
      (memberFunctionTypes
        { k with uses := Finset.sort (· ≤ ·) (k.uses.toFinset ∪ bodyFoundTypes bodyTypes k) }) = []
  rw [memberFunctionTypes_of_builtins
    { k with uses := Finset.sort (· ≤ ·) (k.uses.toFinset ∪ bodyFoundTypes bodyTypes k) }
    h2 h3 h4]
  show Finset.sort (· ≤ ·)
      ((Finset.sort (· ≤ ·) (k.uses.toFinset ∪ bodyFoundTypes bodyTypes k)).toFinset) = []
  rw [Finset.sort_toFinset, h0, hbody]
  simp [Finset.sort_empty]

/-- C5, witness: a declaration whose member, constructor parameter,
function return and parameter types, and body references are all
built-ins. -/
theorem c5_builtin_filtering_witness :
    (extractClassesUsed ["Int", "List"]
      { package_name := "app", name := "Calc",
        members := [{ name := "n", type := "Int" }],
        constructor_param_type := [{ name := "c", type := "String" }],
        functions := [{ name := "f", return_type := "Unit",
                        parameters := [{ name := "b", type := "Boolean" }] }] }).uses = [] :=
  c5_builtin_filtering ["Int", "List"]
    { package_name := "app", name := "Calc",
      members := [{ name := "n", type := "Int" }],
      constructor_param_type := [{ name := "c", type := "String" }],
      functions := [{ name := "f", return_type := "Unit",
                      parameters := [{ name := "b", type := "Boolean" }] }] }
    rfl (by decide) (by decide) (by decide) (by decide)

/-- C6, counterexample: a function parameter without any modifier is
extracted with visibility `""`, not the claimed default "public". -/
theorem c6_counterexample :
    (extractFunctionParam { name := "data", type := "T" }).visibility = "" ∧
    ("" : String) ≠ "public" :=
  ⟨rfl, by decide⟩

/-- C6 (amended): when no explicit visibility modifier is captured, the
extracted visibility is "public" for top-level declarations, member
properties, constructor parameters, and functions; function parameters
are instead always assigned the empty string. -/
theorem c6_visibility_defaults :
    (∀ (c : DeclCaptures) (k : KotlinAnalysisData), c.classVisibility = none →
      (extractHighLevelDeclaration c k).visibility = "public") ∧
    (∀ c : PropertyCaptures, c.visibility = none →
      (extractMember c).visibility = "public") ∧
    (∀ c : CtorParamCaptures, c.visibility = none →
      (extractCtorParam c).visibility = "public") ∧
    (∀ c : FunctionCaptures, c.visibility = none →
      (extractFunction c).visibility = "public") ∧
    (∀ c : FuncParamCaptures, (extractFunctionParam c).visibility = "") := by
  refine ⟨?_, ?_, ?_, ?_, ?_⟩
  · rintro ⟨ca, cv, cm, ct⟩ k rfl
    cases ca <;> cases cm <;> cases ct <;> simp [extractHighLevelDeclaration]
  · rintro ⟨ca, cv, cn, ct, cd⟩ rfl
    cases cn <;> cases ct <;> cases cd <;> simp [extractMember]
  · rintro ⟨cn, ca, cv, ct, cd⟩ rfl
    cases cn <;> cases ct <;> cases cd <;> simp [extractCtorParam]
  · rintro ⟨ca, cn, cv, cp, cr⟩ rfl
    cases cn <;> cases cr <;> simp [extractFunction]
  · rintro ⟨ca, cn, ct, cd⟩
    cases cd <;> simp [extractFunctionParam]

/-- C6, witness: a property with no modifier comes out "public"; applied
through `c6_visibility_defaults` at a concrete capture record. -/
theorem c6_visibility_defaults_witness :
    (extractMember { name := some "counter", type := some "Int" }).visibility = "public" :=
  c6_visibility_defaults.2.1 { name := some "counter", type := some "Int" } rfl

/-- C7 (code_bug): a pattern compile error does not surface and does not
halt anything: the code swallows it and hands back `None`, which later
turns into a per-file fault when the `None` cursor is used. -/
theorem c7_compile_error_swallowed :
    createQueryCursor (Except.error "Invalid query syntax") = none :=
  rfl

/-- C8, counterexample: an import path occurring twice in the file is
collected twice — the extracted list is not duplicate-free. -/
theorem c8_counterexample :
    extractImportsWq [some "a.B", some "a.B"] = ["a.B", "a.B"] ∧
    (["a.B", "a.B"] : List String).count "a.B" = 2 ∧
    ¬ (["a.B", "a.B"] : List String).Nodup :=
  ⟨rfl, by decide, by decide⟩

/-- C8 (amended): the collected import list is exactly the non-empty
captured import texts in source order; a duplicated import path is kept
once per occurrence (no de-duplication). -/
theorem c8_imports_in_source_order (captures : List (Option String)) :
    extractImportsWq captures =
      captures.filterMap
        (fun c => if extractImportText c = "" then none else some (extractImportText c)) := by
  unfold extractImportsWq
  rw [foldl_importStep]
  simp

/-- C9 (confirmed): an extracted function's `return_type` is the dataclass
default "Unit" when no return-type capture is present, and the raw
captured token when one is. -/
theorem c9_return_type_default (c : FunctionCaptures) :
    (c.returnType = none → (extractFunction c).return_type = "Unit") ∧
    (∀ t, c.returnType = some t → (extractFunction c).return_type = t) := by
  obtain ⟨ca, cn, cv, cp, cr⟩ := c
  constructor
  · rintro rfl
    cases cn <;> cases cv <;> simp [extractFunction]
  · rintro t rfl
    cases cn <;> cases cv <;> simp [extractFunction]

/-- C9, witness: a function with no declared return type, and one with
return type `"User"`, through `c9_return_type_default`. -/
theorem c9_return_type_default_witness :
    (extractFunction { name := some "emptyParamFuncName" }).return_type = "Unit" ∧
    (extractFunction { name := some "get", returnType := some "User" }).return_type = "User" :=
  ⟨(c9_return_type_default { name := some "emptyParamFuncName" }).1 rfl,
   (c9_return_type_default { name := some "get", returnType := some "User" }).2 "User" rfl⟩

/-- C10 (confirmed): the stored `uses` list is always the sort of a set:
ascending under the string order and duplicate-free. -/
theorem c10_uses_sorted_nodup (bodyTypes : List String) (k : KotlinAnalysisData) :
    ((extractClassesUsed bodyTypes k).uses).Sorted (· ≤ ·) ∧
    ((extractClassesUsed bodyTypes k).uses).Nodup :=
  ⟨Finset.sort_sorted _ _, Finset.sort_nodup _ _⟩
